import Mathlib

/-!
Verification development for the Django admin integration layer in
`scheduler/admin/old_task_models.py` (django-tasks-scheduler).

The file under verification is UI glue over an ORM: it configures list
columns and detail fieldsets per task variant, implements four bulk
actions (migrate, disable, enable, enqueue-now), hooks the two deletion
paths to unschedule tasks first, and renders a paginated execution
history that degrades gracefully on broker connection errors.

Shallow embedding conventions:
* A `Task` record models the persisted ORM row (name, job_id, enabled).
* Each admin action is a pure function from the operator-selected list
  of records to an `ActionResult` holding the persisted records after
  the action, the lists of external calls made (unschedule / save /
  enqueue_to_run / migrate, in call order), and the user message with
  its severity level.
* The `queryset.filter(...)` in the Python loops is modelled as the
  per-record test inside the structurally recursive loop functions.
* Persistence of the `enabled = False` flip in `disable_selected` goes
  through the external `unschedule` collaborator, which is not part of
  the source file; per the spec ("changes exactly k records to
  disabled") the unscheduled record is persisted in its mutated state.
* `change_view` takes the outcome of the external execution-history
  fetch as an `Except` value (the collaborator raises a
  connection-class error on backend unavailability) and mirrors the
  try/except plus Django's `Paginator`/`get_page` semantics.
* The two deletion paths are modelled as external-call traces
  (`Event` lists): unschedule calls and record deletions in the order
  they are performed.
-/

namespace SchedulerAdmin

/-- A persisted task record as seen by this admin surface: the fields the
admin actions read or write. -/
structure Task where
  name : String
  job_id : Option String
  enabled : Bool
  deriving Repr, DecidableEq

/-- Severity of a user-facing message banner (`django.contrib.messages`
levels INFO and WARNING as used by this file). -/
inductive MessageLevel
  | info
  | warning
  deriving Repr, DecidableEq

/-- `get_message_bit(rows_updated)`: pluralized count prefix of the
bulk-action messages. -/
def get_message_bit (rows_updated : Nat) : String :=
  if rows_updated = 1 then ("1 task was") else (toString rows_updated ++ " tasks were")

/-- `obj.enabled = b` on an ORM record. -/
def setEnabled (t : Task) (b : Bool) : Task :=
  { t with enabled := b }

/-- Outcome of one bulk action: the persisted records of the selection
after the action (in selection order), the external calls made
(in call order), and the message banner. -/
structure ActionResult where
  records : List Task
  unscheduled : List Task
  saved : List Task
  enqueued : List Task
  migrated : List Task
  message : String
  level : MessageLevel
  deriving Repr, DecidableEq

/-- Loop body of `disable_selected`: iterate the selection; each record
matching `filter(enabled=True)` is flipped to disabled and unscheduled
(the unschedule collaborator persists the mutated record, per the spec),
and counted; the rest are left untouched.
Returns (persisted records, unschedule calls, rows_updated). -/
def disableRun : List Task → List Task × List Task × Nat
  | [] => ([], [], 0)
  | obj :: rest =>
    let r := disableRun rest
    if obj.enabled then
      let obj' := setEnabled obj false
      (obj' :: r.1, obj' :: r.2.1, r.2.2 + 1)
    else
      (obj :: r.1, r.2.1, r.2.2)

/-- `TaskAdmin.disable_selected`. -/
def disable_selected (queryset : List Task) : ActionResult :=
  let r := disableRun queryset
  { records := r.1
    unscheduled := r.2.1
    saved := []
    enqueued := []
    migrated := []
    message := get_message_bit r.2.2 ++ " successfully disabled and unscheduled."
    level := if r.2.2 = 0 then MessageLevel.warning else MessageLevel.info }

/-- Loop body of `enable_selected`: each record matching
`filter(enabled=False)` is flipped to enabled, saved and counted; the
rest are left untouched. Returns (persisted records, save calls,
rows_updated). -/
def enableRun : List Task → List Task × List Task × Nat
  | [] => ([], [], 0)
  | obj :: rest =>
    let r := enableRun rest
    if obj.enabled then
      (obj :: r.1, r.2.1, r.2.2)
    else
      let obj' := setEnabled obj true
      (obj' :: r.1, obj' :: r.2.1, r.2.2 + 1)

/-- `TaskAdmin.enable_selected`. -/
def enable_selected (queryset : List Task) : ActionResult :=
  let r := enableRun queryset
  { records := r.1
    unscheduled := []
    saved := r.2.1
    enqueued := []
    migrated := []
    message := get_message_bit r.2.2 ++ " successfully enabled and scheduled."
    level := if r.2.2 = 0 then MessageLevel.warning else MessageLevel.info }

/-- Loop body of `migrate_selected`: every record of the selection is
passed to the external migration routine and counted. Returns
(migrate calls, rows_updated). -/
def migrateRun : List Task → List Task × Nat
  | [] => ([], 0)
  | obj :: rest =>
    let r := migrateRun rest
    (obj :: r.1, r.2 + 1)

/-- `TaskAdmin.migrate_selected`. -/
def migrate_selected (queryset : List Task) : ActionResult :=
  let r := migrateRun queryset
  { records := queryset
    unscheduled := []
    saved := []
    enqueued := []
    migrated := r.1
    message := get_message_bit r.2 ++ " successfully migrated to new model."
    level := if r.2 = 0 then MessageLevel.warning else MessageLevel.info }

/-- Loop body of `enqueue_job_now`: every record of the selection gets
`enqueue_to_run()` and its name collected. Returns
(enqueue calls, task_names). -/
def enqueueRun : List Task → List Task × List String
  | [] => ([], [])
  | task :: rest =>
    let r := enqueueRun rest
    (task :: r.1, task.name :: r.2)

/-- `TaskAdmin.enqueue_job_now`. `message_user` is called without an
explicit level, so Django's default informational level applies. -/
def enqueue_job_now (queryset : List Task) : ActionResult :=
  let r := enqueueRun queryset
  { records := queryset
    unscheduled := []
    saved := []
    enqueued := r.1
    migrated := []
    message := "The following jobs have been enqueued: " ++ String.intercalate (", ") r.2
    level := MessageLevel.info }

/-- `_LIST_DISPLAY_EXTRA`: per-variant extra list columns, keyed by the
model class name. -/
def _LIST_DISPLAY_EXTRA : List (String × List String) :=
  [("CronTask",
    ["cron_string", "next_run", "successful_runs", "last_successful_run",
     "failed_runs", "last_failed_run"]),
   ("ScheduledTask", ["scheduled_time"]),
   ("RepeatableTask",
    ["scheduled_time", "interval_display", "successful_runs",
     "last_successful_run", "failed_runs", "last_failed_run"])]

/-- One entry of a fieldset's `fields` tuple: either a single field name
or a tuple of field names rendered on one row. -/
inductive FieldItem
  | single (f : String)
  | group (fs : List String)
  deriving Repr, DecidableEq

/-- One fieldset: optional title and its `fields` tuple. -/
structure Fieldset where
  title : Option String
  fields : List FieldItem
  deriving Repr, DecidableEq

/-- `_FIELDSET_EXTRA`: per-variant extra detail-page fields, keyed by the
model class name. -/
def _FIELDSET_EXTRA : List (String × List FieldItem) :=
  [("CronTask",
    [FieldItem.single ("cron_string"), FieldItem.single ("timeout"),
     FieldItem.single ("result_ttl"),
     FieldItem.group ["successful_runs", "last_successful_run"],
     FieldItem.group ["failed_runs", "last_failed_run"]]),
   ("ScheduledTask",
    [FieldItem.single ("scheduled_time"), FieldItem.single ("timeout"),
     FieldItem.single ("result_ttl")]),
   ("RepeatableTask",
    [FieldItem.single ("scheduled_time"),
     FieldItem.group ["interval", "interval_unit"],
     FieldItem.single ("repeat"), FieldItem.single ("timeout"),
     FieldItem.single ("result_ttl"),
     FieldItem.group ["successful_runs", "last_successful_run"],
     FieldItem.group ["failed_runs", "last_failed_run"]])]

/-- How the request's page query parameter `p` arrives: absent (Python
default `1` applies), present but not an integer, or an integer. -/
inductive PageParam
  | missing
  | notAnInt
  | num (n : Int)
  deriving Repr, DecidableEq

/-- The slice of an HTTP request this admin surface reads: the page
query parameter of the detail view. -/
structure HttpRequest where
  page_param : PageParam
  deriving Repr, DecidableEq

namespace TaskAdmin

/-- `TaskAdmin.list_display`: base list columns shared by all variants. -/
def list_display : List String :=
  ["enabled", "name", "link_new_task", "job_id", "function_string",
   "is_scheduled", "queue"]

/-- `TaskAdmin.fieldsets`: base fieldsets shared by all variants. -/
def fieldsets : List Fieldset :=
  [⟨none,
    [FieldItem.single ("name"), FieldItem.single ("callable"),
     FieldItem.single ("enabled"), FieldItem.single ("at_front")]⟩,
   ⟨some ("RQ Settings"), [FieldItem.single ("queue"), FieldItem.single ("job_id")]⟩]

/-- `TaskAdmin.get_list_display`: raises `ValueError` (modelled as
`Except.error`) when the model class name is not a key of
`_LIST_DISPLAY_EXTRA`; otherwise base columns plus the variant's extra
columns. -/
def get_list_display (modelName : String) : Except String (List String) :=
  match _LIST_DISPLAY_EXTRA.lookup modelName with
  | none => Except.error ("Unrecognized model " ++ modelName)
  | some extra => Except.ok (list_display ++ extra)

/-- `TaskAdmin.get_fieldsets`: raises `ValueError` (modelled as
`Except.error`) when the model class name is not a key of
`_FIELDSET_EXTRA`; otherwise base fieldsets plus a "Scheduling" fieldset
holding the variant's extra fields. -/
def get_fieldsets (modelName : String) : Except String (List Fieldset) :=
  match _FIELDSET_EXTRA.lookup modelName with
  | none => Except.error ("Unrecognized model " ++ modelName)
  | some extra => Except.ok (fieldsets ++ [⟨some ("Scheduling"), extra⟩])

/-- `TaskAdmin.has_add_permission`: always denies creating task records
through this surface. -/
def has_add_permission (_request : HttpRequest) : Bool :=
  false

end TaskAdmin

/-- Django `Paginator` over an already-fetched object list. -/
structure Paginator (α : Type) where
  object_list : List α
  per_page : Nat

/-- `Paginator.count`: total number of objects. -/
def Paginator.count {α : Type} (p : Paginator α) : Nat :=
  p.object_list.length

/-- `Paginator.num_pages`: ceil(max(1, count) / per_page), Django's
formula with zero orphans and `allow_empty_first_page` (so an empty list
still has one page). -/
def Paginator.num_pages {α : Type} (p : Paginator α) : Nat :=
  (max 1 p.count + p.per_page - 1) / p.per_page

/-- `Paginator.get_page`: a non-integer page parameter falls back to
page 1; an out-of-range integer (below 1 or above `num_pages`) falls
back to the last page; an absent parameter means the view's Python
default `1`, which validates to page 1. -/
def Paginator.get_page {α : Type} (p : Paginator α) (number : PageParam) : Nat :=
  match number with
  | PageParam.missing => 1
  | PageParam.notAnInt => 1
  | PageParam.num n =>
    if n < 1 then p.num_pages
    else if (p.num_pages : Int) < n then p.num_pages
    else n.toNat

/-- Objects on the given (1-based) page. -/
def Paginator.pageItems {α : Type} (p : Paginator α) (number : Nat) : List α :=
  (p.object_list.drop ((number - 1) * p.per_page)).take p.per_page

/-- The template context `TaskAdmin.change_view` adds before delegating
to the framework's rendering (which this function models by returning
the context: the connection error never escapes). `warned_connection_error`
records the `logger.warn` call of the except branch. -/
structure ChangeViewExtra (α : Type) where
  pagination_required : Bool
  executions_number : Nat
  executions_items : List α
  page_var : String
  warned_connection_error : Bool
  deriving Repr, DecidableEq

/-- `TaskAdmin.change_view`: `fetched` is the outcome of the external
`get_job_executions_for_task` call (raising a connection-class error on
backend unavailability), `executions_in_page` is
`SCHEDULER_CONFIG.EXECUTIONS_IN_PAGE`. -/
def change_view {α : Type} (fetched : Except String (List α))
    (executions_in_page : Nat) (request : HttpRequest) : ChangeViewExtra α :=
  let fr :=
    match fetched with
    | Except.ok l => (l, false)
    | Except.error _ => (([] : List α), true)
  let paginator : Paginator α := ⟨fr.1, executions_in_page⟩
  let page_number := paginator.get_page request.page_param
  { pagination_required := decide (executions_in_page < paginator.count)
    executions_number := page_number
    executions_items := paginator.pageItems page_number
    page_var := "p"
    warned_connection_error := fr.2 }

/-- An external call made by the deletion paths, in call order. -/
inductive Event
  | unschedule (t : Task)
  | deleteRecord (t : Task)
  deriving Repr, DecidableEq

/-- `TaskAdmin.delete_queryset` (bulk delete): unschedule every selected
record, then delegate to the framework's bulk delete, which removes
each record from storage. The returned list is the call trace. -/
def delete_queryset (queryset : List Task) : List Event :=
  queryset.map Event.unschedule ++ queryset.map Event.deleteRecord

/-- `TaskAdmin.delete_model` (single-object delete): unschedule the
record, then delegate to the framework's delete. -/
def delete_model (obj : Task) : List Event :=
  [Event.unschedule obj, Event.deleteRecord obj]

/-! ## Loop characterizations -/

/-- The disable loop touches exactly the records matching
`filter(enabled=True)`: it persists them disabled, unschedules them in
selection order, and counts them; the rest come out untouched. -/
theorem disableRun_eq (l : List Task) :
    disableRun l =
      (l.map (fun t => if t.enabled then setEnabled t false else t),
       (l.filter (fun t => t.enabled)).map (fun t => setEnabled t false),
       (l.filter (fun t => t.enabled)).length) := by
  induction l with
  | nil => rfl
  | cons a l ih =>
    cases h : a.enabled <;> simp [disableRun, h, ih, List.filter_cons]

/-- The enable loop touches exactly the records matching
`filter(enabled=False)`: it persists them enabled via `save`, in
selection order, and counts them; the rest come out untouched. -/
theorem enableRun_eq (l : List Task) :
    enableRun l =
      (l.map (fun t => if t.enabled then t else setEnabled t true),
       (l.filter (fun t => !t.enabled)).map (fun t => setEnabled t true),
       (l.filter (fun t => !t.enabled)).length) := by
  induction l with
  | nil => rfl
  | cons a l ih =>
    cases h : a.enabled <;> simp [enableRun, h, ih, List.filter_cons]

/-- The migrate loop migrates every selected record and counts them all. -/
theorem migrateRun_eq (l : List Task) :
    migrateRun l = (l, l.length) := by
  induction l with
  | nil => rfl
  | cons a l ih => simp [migrateRun, ih]

/-- The enqueue loop enqueues every selected record and collects every
name in selection order. -/
theorem enqueueRun_eq (l : List Task) :
    enqueueRun l = (l, l.map Task.name) := by
  induction l with
  | nil => rfl
  | cons a l ih => simp [enqueueRun, ih]

/-- In the bulk-delete trace every record deletion is preceded by an
unschedule call for that same record. -/
theorem delete_queryset_ordered (qs : List Task) (t : Task) (j : Nat)
    (h : (delete_queryset qs).get? j = some (Event.deleteRecord t)) :
    ∃ i, i < j ∧ (delete_queryset qs).get? i = some (Event.unschedule t) := by
  unfold delete_queryset at h ⊢
  by_cases hj : j < qs.length
  · rw [List.get?_append (by simpa using hj), List.get?_map] at h
    cases hq : qs.get? j with
    | none => rw [hq] at h; exact absurd h (by simp)
    | some a => rw [hq] at h; exact absurd h (by simp)
  · push_neg at hj
    rw [List.get?_append_right (by simpa using hj), List.length_map,
      List.get?_map] at h
    cases hq : qs.get? (j - qs.length) with
    | none => rw [hq] at h; exact absurd h (by simp)
    | some a =>
      rw [hq] at h
      have hat : a = t := by simpa using h
      have hlt : j - qs.length < qs.length := by
        by_contra h2
        push_neg at h2
        rw [List.get?_eq_none.mpr h2] at hq
        cases hq
      refine ⟨j - qs.length, by omega, ?_⟩
      rw [List.get?_append (by simpa using hlt), List.get?_map, hq, hat]
      rfl

/-- In the single-object delete trace the unschedule call precedes the
record deletion. -/
theorem delete_model_ordered (obj t : Task) (j : Nat)
    (h : (delete_model obj).get? j = some (Event.deleteRecord t)) :
    ∃ i, i < j ∧ (delete_model obj).get? i = some (Event.unschedule t) := by
  match j with
  | 0 => exact absurd h (by simp [delete_model])
  | 1 =>
    have hat : obj = t := by simpa [delete_model] using h
    exact ⟨0, by omega, by simp [delete_model, hat]⟩
  | (n + 2) => exact absurd h (by simp [delete_model])

/-! ## Claims -/

/-- C1: on a selection, `disable_selected` flips exactly the enabled
records to disabled (persisting them), invokes `unschedule` on exactly
those records, and reports their count in its message; already-disabled
records come out identical, are never unscheduled, and are not counted
(count = length of the enabled sublist, on which the message is built). -/
theorem disable_selected_correct (sel : List Task) :
    (disable_selected sel).records =
      sel.map (fun t => if t.enabled then setEnabled t false else t) ∧
    (disable_selected sel).unscheduled =
      (sel.filter (fun t => t.enabled)).map (fun t => setEnabled t false) ∧
    (disable_selected sel).message =
      get_message_bit ((sel.filter (fun t => t.enabled)).length) ++
        " successfully disabled and unscheduled." ∧
    (disable_selected sel).saved = [] ∧
    (disable_selected sel).enqueued = [] ∧
    (disable_selected sel).migrated = [] := by
  simp [disable_selected, disableRun_eq]

/-- C2 counterexample: `enqueue_job_now` on an empty selection (zero
affected records) emits an informational message, not a warning, and its
message is the name-listing banner, not of the form "0 tasks were ...";
so not every bulk action handler follows the count/warning convention. -/
theorem enqueue_counts_counterexample :
    (enqueue_job_now []).level = MessageLevel.info ∧
    (enqueue_job_now []).level ≠ MessageLevel.warning ∧
    (enqueue_job_now []).enqueued.length = 0 ∧
    (enqueue_job_now []).message = "The following jobs have been enqueued: " ∧
    (enqueue_job_now []).message ≠ get_message_bit 0 ++ " successfully enqueued." := by
  refine ⟨rfl, by decide, rfl, rfl, by decide⟩

/-- C2 amended: the three count-reporting handlers (migrate, disable,
enable) build their message from `get_message_bit` (so "1 task was" /
"N tasks were") and use warning level exactly when the affected count is
zero; `enqueue_job_now` instead always emits an informational message
listing the task names. -/
theorem bulk_action_messages (sel : List Task) :
    ((migrate_selected sel).message =
        get_message_bit sel.length ++ " successfully migrated to new model." ∧
      ((migrate_selected sel).level = MessageLevel.warning ↔ sel.length = 0)) ∧
    ((disable_selected sel).message =
        get_message_bit ((sel.filter (fun t => t.enabled)).length) ++
          " successfully disabled and unscheduled." ∧
      ((disable_selected sel).level = MessageLevel.warning ↔
        (sel.filter (fun t => t.enabled)).length = 0)) ∧
    ((enable_selected sel).message =
        get_message_bit ((sel.filter (fun t => !t.enabled)).length) ++
          " successfully enabled and scheduled." ∧
      ((enable_selected sel).level = MessageLevel.warning ↔
        (sel.filter (fun t => !t.enabled)).length = 0)) ∧
    (enqueue_job_now sel).level = MessageLevel.info ∧
    get_message_bit 1 = "1 task was" ∧
    get_message_bit 0 = "0 tasks were" := by
  refine ⟨⟨?_, ?_⟩, ⟨?_, ?_⟩, ⟨?_, ?_⟩, rfl, rfl, rfl⟩ <;>
    simp [migrate_selected, migrateRun_eq, disable_selected, disableRun_eq,
      enable_selected, enableRun_eq, enqueue_job_now, MessageLevel]

/-- C3: for each of the three variants, the computed list columns are
the seven base columns followed by exactly that variant's extra columns
in order, and the computed fieldsets are the base fieldsets followed by
exactly one "Scheduling" fieldset holding that variant's extra fields in
order. -/
theorem variant_columns_and_fieldsets :
    TaskAdmin.get_list_display ("CronTask") =
      Except.ok
        ["enabled", "name", "link_new_task", "job_id", "function_string",
         "is_scheduled", "queue", "cron_string", "next_run",
         "successful_runs", "last_successful_run", "failed_runs",
         "last_failed_run"] ∧
    TaskAdmin.get_list_display ("ScheduledTask") =
      Except.ok
        ["enabled", "name", "link_new_task", "job_id", "function_string",
         "is_scheduled", "queue", "scheduled_time"] ∧
    TaskAdmin.get_list_display ("RepeatableTask") =
      Except.ok
        ["enabled", "name", "link_new_task", "job_id", "function_string",
         "is_scheduled", "queue", "scheduled_time", "interval_display",
         "successful_runs", "last_successful_run", "failed_runs",
         "last_failed_run"] ∧
    TaskAdmin.get_fieldsets ("CronTask") =
      Except.ok (TaskAdmin.fieldsets ++
        [⟨some ("Scheduling"),
          [FieldItem.single ("cron_string"), FieldItem.single ("timeout"),
           FieldItem.single ("result_ttl"),
           FieldItem.group ["successful_runs", "last_successful_run"],
           FieldItem.group ["failed_runs", "last_failed_run"]]⟩]) ∧
    TaskAdmin.get_fieldsets ("ScheduledTask") =
      Except.ok (TaskAdmin.fieldsets ++
        [⟨some ("Scheduling"),
          [FieldItem.single ("scheduled_time"), FieldItem.single ("timeout"),
           FieldItem.single ("result_ttl")]⟩]) ∧
    TaskAdmin.get_fieldsets ("RepeatableTask") =
      Except.ok (TaskAdmin.fieldsets ++
        [⟨some ("Scheduling"),
          [FieldItem.single ("scheduled_time"),
           FieldItem.group ["interval", "interval_unit"],
           FieldItem.single ("repeat"), FieldItem.single ("timeout"),
           FieldItem.single ("result_ttl"),
           FieldItem.group ["successful_runs", "last_successful_run"],
           FieldItem.group ["failed_runs", "last_failed_run"]]⟩]) :=
  ⟨rfl, rfl, rfl, rfl, rfl, rfl⟩

/-- C4: whenever the execution-history fetch raises a connection-class
error, `change_view` logs a warning, substitutes the empty execution
list (so the rendered page shows no executions and needs no pagination),
and still produces the render context — the error never propagates. -/
theorem change_view_connection_error_recovered (α : Type) (e : String)
    (executions_in_page : Nat) (request : HttpRequest) :
    (change_view (Except.error e : Except String (List α))
        executions_in_page request).warned_connection_error = true ∧
    (change_view (Except.error e : Except String (List α))
        executions_in_page request).executions_items = [] ∧
    (change_view (Except.error e : Except String (List α))
        executions_in_page request).pagination_required = false ∧
    (change_view (Except.error e : Except String (List α))
        executions_in_page request).page_var = "p" := by
  refine ⟨rfl, ?_, by simp [change_view, Paginator.count], rfl⟩
  simp [change_view, Paginator.pageItems]

/-- C5: on both deletion paths, any record deletion appearing in the
call trace is preceded by an unschedule call on the same record: no
record is removed from storage without having been unscheduled first. -/
theorem deletion_unschedules_before_delete (qs : List Task) (obj t : Task)
    (j : Nat) :
    ((delete_queryset qs).get? j = some (Event.deleteRecord t) →
      ∃ i, i < j ∧ (delete_queryset qs).get? i = some (Event.unschedule t)) ∧
    ((delete_model obj).get? j = some (Event.deleteRecord t) →
      ∃ i, i < j ∧ (delete_model obj).get? i = some (Event.unschedule t)) :=
  ⟨delete_queryset_ordered qs t j, delete_model_ordered obj t j⟩

/-- C5 witness: in the bulk-delete trace of a one-record selection the
deletion sits at index 1 and an unschedule call for the record precedes
it. -/
theorem deletion_unschedules_before_delete_witness :
    (delete_queryset [Task.mk ("a") none true]).get? 1 =
        some (Event.deleteRecord (Task.mk ("a") none true)) ∧
    (∃ i, i < 1 ∧ (delete_queryset [Task.mk ("a") none true]).get? i =
        some (Event.unschedule (Task.mk ("a") none true))) :=
  ⟨by decide,
   (deletion_unschedules_before_delete [Task.mk ("a") none true]
      (Task.mk ("a") none true) (Task.mk ("a") none true) 1).1 (by decide)⟩

/-- C6: `enqueue_job_now` enqueues every selected record — enabled or
not — in selection order, leaves every record unchanged, and its message
lists every selected task's name in selection order. -/
theorem enqueue_job_now_correct (sel : List Task) :
    (enqueue_job_now sel).enqueued = sel ∧
    (enqueue_job_now sel).message =
      "The following jobs have been enqueued: " ++
        String.intercalate (", ") (sel.map Task.name) ∧
    (enqueue_job_now sel).records = sel ∧
    (enqueue_job_now sel).unscheduled = [] ∧
    (enqueue_job_now sel).saved = [] := by
  simp [enqueue_job_now, enqueueRun_eq]

/-- C7: on a selection, `enable_selected` flips exactly the disabled
records to enabled and persists (saves) exactly those, reports their
count in its message, leaves already-enabled records identical, and
performs no unschedule, enqueue or migrate call (no explicit
re-schedule). -/
theorem enable_selected_correct (sel : List Task) :
    (enable_selected sel).records =
      sel.map (fun t => if t.enabled then t else setEnabled t true) ∧
    (enable_selected sel).saved =
      (sel.filter (fun t => !t.enabled)).map (fun t => setEnabled t true) ∧
    (enable_selected sel).message =
      get_message_bit ((sel.filter (fun t => !t.enabled)).length) ++
        " successfully enabled and scheduled." ∧
    (enable_selected sel).unscheduled = [] ∧
    (enable_selected sel).enqueued = [] ∧
    (enable_selected sel).migrated = [] := by
  simp [enable_selected, enableRun_eq]

/-- C8: for any model class name other than CronTask, ScheduledTask and
RepeatableTask, both `get_list_display` and `get_fieldsets` raise
(return an error) instead of returning a field set. -/
theorem unrecognized_variant_errors (s : String)
    (h1 : s ≠ "CronTask") (h2 : s ≠ "ScheduledTask")
    (h3 : s ≠ "RepeatableTask") :
    TaskAdmin.get_list_display s = Except.error ("Unrecognized model " ++ s) ∧
    TaskAdmin.get_fieldsets s = Except.error ("Unrecognized model " ++ s) := by
  have b1 : (s == "CronTask") = false := beq_eq_false_iff_ne.mpr h1
  have b2 : (s == "ScheduledTask") = false := beq_eq_false_iff_ne.mpr h2
  have b3 : (s == "RepeatableTask") = false := beq_eq_false_iff_ne.mpr h3
  constructor <;>
    simp [TaskAdmin.get_list_display, TaskAdmin.get_fieldsets,
      _LIST_DISPLAY_EXTRA, _FIELDSET_EXTRA, List.lookup, b1, b2, b3]

/-- C8 witness: the base model name "BaseTask" is unrecognized and both
computations error out on it. -/
theorem unrecognized_variant_errors_witness :
    TaskAdmin.get_list_display ("BaseTask") =
        Except.error ("Unrecognized model " ++ "BaseTask") ∧
    TaskAdmin.get_fieldsets ("BaseTask") =
        Except.error ("Unrecognized model " ++ "BaseTask") :=
  unrecognized_variant_errors ("BaseTask") (by decide) (by decide) (by decide)

/-- C9: the add-permission check answers false for every request: no new
task record can be created through this surface. -/
theorem has_add_permission_always_false (request : HttpRequest) :
    TaskAdmin.has_add_permission request = false :=
  rfl

/-- C10: on the detail page, `pagination_required` holds exactly when
the number of fetched execution records strictly exceeds the configured
page size; with exactly one full page (count = page size) it is false. -/
theorem pagination_required_iff_overflow (l : List Nat)
    (executions_in_page : Nat) (request : HttpRequest) :
    (((change_view (Except.ok l : Except String (List Nat))
        executions_in_page request).pagination_required = true) ↔
      executions_in_page < l.length) ∧
    (change_view (Except.ok l : Except String (List Nat))
        l.length request).pagination_required = false := by
  constructor
  · simp [change_view, Paginator.count]
  · simp [change_view, Paginator.count]

end SchedulerAdmin
